import Mathlib

/-!
Shallow embedding of the jfxcore native-interop fragments:

* `PlatformXR.h` — the WebXR `Device` feature map (`supports`,
  `setEnabledFeatures`, `enabledFeatures` over `WTF::HashMap<SessionMode,
  Vector<ReferenceSpaceType>>`), modelled as a total function from
  `SessionMode` to an optional feature list.
* `svgloader.c` / `svgloader.cc` — the JNI `parseDocument` entry points and
  their error-message tables, modelled with the JNI environment's observable
  behaviour (array pinning success, the `resvg` parse result) passed in as
  explicit parameters, and the outcome (returned handle plus optionally
  thrown exception) made explicit.
* `ThemeSupport.cpp` — the Windows theme bridge, modelled with the platform
  queries (`SystemParametersInfo`, `GetSysColor`, `UISettings::GetColorValue`,
  WinRT activation success) passed in as explicit parameters and the
  caller-supplied `java.util.Map` modelled as the ordered list of `put`
  calls issued against it.
-/

namespace PlatformXR

/-- `enum class SessionMode : uint8_t { Inline, ImmersiveVr, ImmersiveAr }`. -/
inductive SessionMode where
  | Inline
  | ImmersiveVr
  | ImmersiveAr
deriving DecidableEq, Repr

/-- `enum class ReferenceSpaceType { Viewer, Local, LocalFloor, BoundedFloor, Unbounded }`. -/
inductive ReferenceSpaceType where
  | Viewer
  | Local
  | LocalFloor
  | BoundedFloor
  | Unbounded
deriving DecidableEq, Repr

/-- `using ListOfEnabledFeatures = Vector<ReferenceSpaceType>`. -/
abbrev ListOfEnabledFeatures := List ReferenceSpaceType

/-- The state of a `PlatformXR::Device` relevant to the feature-map interface:
`m_enabledFeaturesMap` is the `WTF::HashMap<SessionMode, ListOfEnabledFeatures>`
(a key is either absent, `none`, or present with a stored list), and the two
capability flags `m_supportsOrientationTracking` / `m_supportsViewportScaling`. -/
structure Device where
  m_enabledFeaturesMap : SessionMode → Option ListOfEnabledFeatures
  m_supportsOrientationTracking : Bool
  m_supportsViewportScaling : Bool

/-- `bool supports(SessionMode mode) const { return m_enabledFeaturesMap.contains(mode); }` -/
def Device.supports (d : Device) (mode : SessionMode) : Bool :=
  (d.m_enabledFeaturesMap mode).isSome

/-- `void setEnabledFeatures(SessionMode mode, const ListOfEnabledFeatures& features)
{ m_enabledFeaturesMap.set(mode, features); }` — `HashMap::set` inserts or
replaces the entry for the key. -/
def Device.setEnabledFeatures (d : Device) (mode : SessionMode)
    (features : ListOfEnabledFeatures) : Device :=
  { d with
    m_enabledFeaturesMap := fun m =>
      if m = mode then some features else d.m_enabledFeaturesMap m }

/-- `ListOfEnabledFeatures enabledFeatures(SessionMode mode) const
{ return m_enabledFeaturesMap.get(mode); }` — `HashMap::get` returns the
stored value, or a default-constructed (empty) vector when the key is absent. -/
def Device.enabledFeatures (d : Device) (mode : SessionMode) : ListOfEnabledFeatures :=
  (d.m_enabledFeaturesMap mode).getD []

/-- A freshly constructed `Device`: `m_enabledFeaturesMap` is a
default-constructed (empty) `HashMap` and both capability flags are their
in-class initializers `false`. -/
def Device.init : Device :=
  { m_enabledFeaturesMap := fun _ => none
    m_supportsOrientationTracking := false
    m_supportsViewportScaling := false }

/-- A sequence of `setEnabledFeatures` calls applied in order. -/
def Device.applyCalls (d : Device) (calls : List (SessionMode × ListOfEnabledFeatures)) : Device :=
  calls.foldl (fun d c => d.setEnabledFeatures c.1 c.2) d

end PlatformXR

namespace SvgLoader

/-- The `resvg_error` enumeration from the `resvg` C API, as consumed by the
two loaders' `switch` statements (`RESVG_OK` plus the six error values). -/
inductive ResvgError where
  | RESVG_OK
  | RESVG_ERROR_NOT_AN_UTF8_STR
  | RESVG_ERROR_FILE_OPEN_FAILED
  | RESVG_ERROR_MALFORMED_GZIP
  | RESVG_ERROR_ELEMENTS_LIMIT_REACHED
  | RESVG_ERROR_INVALID_SIZE
  | RESVG_ERROR_PARSING_FAILED
deriving DecidableEq, Repr

/-- `static const char* svg_error_message(resvg_error err)` from `svgloader.c`:
a `switch` over the six error values with a `default` arm. -/
def svg_error_message : ResvgError → String
  | .RESVG_ERROR_NOT_AN_UTF8_STR => "Only UTF-8 content is supported"
  | .RESVG_ERROR_FILE_OPEN_FAILED => "Failed to open the provided file"
  | .RESVG_ERROR_MALFORMED_GZIP => "Compressed SVG must use the GZip algorithm"
  | .RESVG_ERROR_ELEMENTS_LIMIT_REACHED => "SVG element limit exceeded"
  | .RESVG_ERROR_INVALID_SIZE => "Invalid size"
  | .RESVG_ERROR_PARSING_FAILED => "Failed to parse SVG data"
  | _ => "Unknown error"

/-- `const char* errorMessage(resvg_error err)` from `svgloader.cc`:
a `switch` over the six error values with a `default` arm. -/
def errorMessage : ResvgError → String
  | .RESVG_ERROR_NOT_AN_UTF8_STR => "Only UTF-8 content is supported"
  | .RESVG_ERROR_FILE_OPEN_FAILED => "Failed to open the provided file"
  | .RESVG_ERROR_MALFORMED_GZIP => "Compressed SVG must use the GZip algorithm"
  | .RESVG_ERROR_ELEMENTS_LIMIT_REACHED => "SVG element limit exceeded"
  | .RESVG_ERROR_INVALID_SIZE => "Invalid size"
  | .RESVG_ERROR_PARSING_FAILED => "Failed to parse SVG data"
  | _ => "Unknown error"

/-- The six error messages the loaders can attach to a thrown exception for a
non-OK parse result: the fixed taxonomy (UTF-8 violation, file-open failure,
malformed compression, element-count limit exceeded, invalid size, generic
parse failure). -/
def svgErrorTaxonomy : List String :=
  [ "Only UTF-8 content is supported"
  , "Failed to open the provided file"
  , "Compressed SVG must use the GZip algorithm"
  , "SVG element limit exceeded"
  , "Invalid size"
  , "Failed to parse SVG data" ]

/-- The observable outcome of a `parseDocument` JNI call: the `jlong` returned
to Java and the pending exception, if one was raised via `ThrowNew`
(exception class name paired with its message). -/
structure ParseOutcome where
  handle : Int
  thrown : Option (String × String)
deriving DecidableEq, Repr

/-- `Java_com_sun_javafx_iio_svg_SVGImageLoader_parseDocument` from
`svgloader.c`. `data = none` models a null `jbyteArray`; `getElemsOk` models
whether `GetByteArrayElements` returned a non-null pointer; `err` and `tree`
model the result of `resvg_parse_tree_from_data` on the pinned bytes. On a
non-OK result it throws `java/io/IOException` with `svg_error_message err`
and returns 0. -/
def parseDocument_c (data : Option (List Nat)) (getElemsOk : Bool)
    (err : ResvgError) (tree : Int) : ParseOutcome :=
  match data with
  | none => ⟨0, none⟩
  | some _ =>
      if !getElemsOk then ⟨0, none⟩
      else if err ≠ ResvgError.RESVG_OK then
        ⟨0, some ("java/io/IOException", svg_error_message err)⟩
      else ⟨tree, none⟩

/-- `Java_com_sun_javafx_iio_svg_SVGImageLoader_parseDocument` from
`svgloader.cc`. `data = none` models a null `jbyteArray`; `err` and `tree`
model the result of `resvg_parse_tree_from_data`. On a non-OK result it
throws `java/lang/InvalidArgumentException` with `errorMessage err`
(via `throwInvalidArgumentException`) and returns 0. -/
def parseDocument_cc (data : Option (List Nat)) (err : ResvgError) (tree : Int) :
    ParseOutcome :=
  match data with
  | none => ⟨0, none⟩
  | some _ =>
      if err ≠ ResvgError.RESVG_OK then
        ⟨0, some ("java/lang/InvalidArgumentException", errorMessage err)⟩
      else ⟨tree, none⟩

end SvgLoader

namespace ThemeSupport

/-- `SPI_GETHIGHCONTRAST` flag bit `HCF_HIGHCONTRASTON` (0x00000001). -/
def HCF_HIGHCONTRASTON : Nat := 1

/-- One uppercase hexadecimal digit, as produced by `sprintf_s` with `%X`
for a value in `0..15`. -/
def hexDigit (n : Nat) : Char :=
  if n < 10 then Char.ofNat (48 + n) else Char.ofNat (55 + n)

/-- The two-character field `sprintf_s` produces with `%02X` for a byte value. -/
def byteToHex (n : Nat) : String :=
  String.mk [hexDigit (n / 16 % 16), hexDigit (n % 16)]

/-- `ThemeSupport::newJavaColorString(int r, int g, int b, int a)`:
`sprintf_s(value, 9, "%02X%02X%02X%02X", r, g, b, a)` — the four byte
components printed as two uppercase hex digits each, in the order r, g, b, a. -/
def newJavaColorString (r g b a : Nat) : String :=
  byteToHex r ++ byteToHex g ++ byteToHex b ++ byteToHex a

/-- The caller-supplied `java.util.Map`, modelled as the ordered list of
`(key, value)` pairs passed to `Map.put`. -/
abbrev PropertiesMap := List (String × String)

/-- `ThemeSupport::putValue(jobject properties, const char* key, value)`:
one `Map.put(key, value)` call appended to the interaction record. -/
def putValue (props : PropertiesMap) (key value : String) : PropertiesMap :=
  props ++ [(key, value)]

/-- `GetRValue(rgb)`: the low-order byte of a COLORREF. -/
def getRValue (cv : Nat) : Nat := cv % 256

/-- `GetGValue(rgb)`: the second byte of a COLORREF. -/
def getGValue (cv : Nat) : Nat := cv / 256 % 256

/-- `GetBValue(rgb)`: the third byte of a COLORREF. -/
def getBValue (cv : Nat) : Nat := cv / 65536 % 256

/-- `ThemeSupport::putColorValue(jobject properties, const char* colorName, int colorValue)`:
stores `newJavaColorString(GetRValue(v), GetGValue(v), GetBValue(v), 255)`
under `colorName`. -/
def putColorValue (props : PropertiesMap) (colorName : String) (colorValue : Nat) :
    PropertiesMap :=
  putValue props colorName
    (newJavaColorString (getRValue colorValue) (getGValue colorValue) (getBValue colorValue) 255)

/-- `ABI::Windows::UI::Color`: four byte fields `A`, `R`, `G`, `B`. -/
structure Color where
  A : Nat
  R : Nat
  G : Nat
  B : Nat

/-- `ThemeSupport::putColorValue(jobject properties, const char* colorName, Color colorValue)`:
stores `newJavaColorString(v.R, v.G, v.B, v.A)` under `colorName`. -/
def putColorValueColor (props : PropertiesMap) (colorName : String) (colorValue : Color) :
    PropertiesMap :=
  putValue props colorName
    (newJavaColorString colorValue.R colorValue.G colorValue.B colorValue.A)

/-- `ThemeSupport::queryHighContrastScheme(jobject properties)`. The
`HIGHCONTRAST` data returned by `SystemParametersInfo(SPI_GETHIGHCONTRAST, ...)`
is passed in as `dwFlags` and `lpszDefaultScheme`. -/
def queryHighContrastScheme (dwFlags : Nat) (lpszDefaultScheme : String)
    (props : PropertiesMap) : PropertiesMap :=
  if dwFlags &&& HCF_HIGHCONTRASTON ≠ 0 then
    putValue (putValue props "Windows.SPI_HighContrastOn" "true")
      "Windows.SPI_HighContrastColorScheme" lpszDefaultScheme
  else
    putValue (putValue props "Windows.SPI_HighContrastOn" "false")
      "Windows.SPI_HighContrastColorScheme" ""

/-- The GDI system-color indices queried by `querySystemColors`. -/
inductive SysColorIndex where
  | COLOR_3DDKSHADOW
  | COLOR_3DFACE
  | COLOR_3DHIGHLIGHT
  | COLOR_3DHILIGHT
  | COLOR_3DLIGHT
  | COLOR_3DSHADOW
  | COLOR_ACTIVEBORDER
  | COLOR_ACTIVECAPTION
  | COLOR_APPWORKSPACE
  | COLOR_BACKGROUND
  | COLOR_BTNFACE
  | COLOR_BTNHIGHLIGHT
  | COLOR_BTNHILIGHT
  | COLOR_BTNSHADOW
  | COLOR_BTNTEXT
  | COLOR_CAPTIONTEXT
  | COLOR_DESKTOP
  | COLOR_GRADIENTACTIVECAPTION
  | COLOR_GRADIENTINACTIVECAPTION
  | COLOR_GRAYTEXT
  | COLOR_HIGHLIGHT
  | COLOR_HIGHLIGHTTEXT
  | COLOR_HOTLIGHT
  | COLOR_INACTIVEBORDER
  | COLOR_INACTIVECAPTION
  | COLOR_INACTIVECAPTIONTEXT
  | COLOR_INFOBK
  | COLOR_INFOTEXT
  | COLOR_MENU
  | COLOR_MENUHILIGHT
  | COLOR_MENUBAR
  | COLOR_MENUTEXT
  | COLOR_SCROLLBAR
  | COLOR_WINDOW
  | COLOR_WINDOWFRAME
  | COLOR_WINDOWTEXT
deriving DecidableEq, Repr

/-- The 36 `(property key, system-color index)` pairs of the `putColorValue`
calls issued by `querySystemColors`, in program order. -/
def sysColorKeys : List (String × SysColorIndex) :=
  [ ("Windows.SysColor.COLOR_3DDKSHADOW", .COLOR_3DDKSHADOW)
  , ("Windows.SysColor.COLOR_3DFACE", .COLOR_3DFACE)
  , ("Windows.SysColor.COLOR_3DHIGHLIGHT", .COLOR_3DHIGHLIGHT)
  , ("Windows.SysColor.COLOR_3DHILIGHT", .COLOR_3DHILIGHT)
  , ("Windows.SysColor.COLOR_3DLIGHT", .COLOR_3DLIGHT)
  , ("Windows.SysColor.COLOR_3DSHADOW", .COLOR_3DSHADOW)
  , ("Windows.SysColor.COLOR_ACTIVEBORDER", .COLOR_ACTIVEBORDER)
  , ("Windows.SysColor.COLOR_ACTIVECAPTION", .COLOR_ACTIVECAPTION)
  , ("Windows.SysColor.COLOR_APPWORKSPACE", .COLOR_APPWORKSPACE)
  , ("Windows.SysColor.COLOR_BACKGROUND", .COLOR_BACKGROUND)
  , ("Windows.SysColor.COLOR_BTNFACE", .COLOR_BTNFACE)
  , ("Windows.SysColor.COLOR_BTNHIGHLIGHT", .COLOR_BTNHIGHLIGHT)
  , ("Windows.SysColor.COLOR_BTNHILIGHT", .COLOR_BTNHILIGHT)
  , ("Windows.SysColor.COLOR_BTNSHADOW", .COLOR_BTNSHADOW)
  , ("Windows.SysColor.COLOR_BTNTEXT", .COLOR_BTNTEXT)
  , ("Windows.SysColor.COLOR_CAPTIONTEXT", .COLOR_CAPTIONTEXT)
  , ("Windows.SysColor.COLOR_DESKTOP", .COLOR_DESKTOP)
  , ("Windows.SysColor.COLOR_GRADIENTACTIVECAPTION", .COLOR_GRADIENTACTIVECAPTION)
  , ("Windows.SysColor.COLOR_GRADIENTINACTIVECAPTION", .COLOR_GRADIENTINACTIVECAPTION)
  , ("Windows.SysColor.COLOR_GRAYTEXT", .COLOR_GRAYTEXT)
  , ("Windows.SysColor.COLOR_HIGHLIGHT", .COLOR_HIGHLIGHT)
  , ("Windows.SysColor.COLOR_HIGHLIGHTTEXT", .COLOR_HIGHLIGHTTEXT)
  , ("Windows.SysColor.COLOR_HOTLIGHT", .COLOR_HOTLIGHT)
  , ("Windows.SysColor.COLOR_INACTIVEBORDER", .COLOR_INACTIVEBORDER)
  , ("Windows.SysColor.COLOR_INACTIVECAPTION", .COLOR_INACTIVECAPTION)
  , ("Windows.SysColor.COLOR_INACTIVECAPTIONTEXT", .COLOR_INACTIVECAPTIONTEXT)
  , ("Windows.SysColor.COLOR_INFOBK", .COLOR_INFOBK)
  , ("Windows.SysColor.COLOR_INFOTEXT", .COLOR_INFOTEXT)
  , ("Windows.SysColor.COLOR_MENU", .COLOR_MENU)
  , ("Windows.SysColor.COLOR_MENUHILIGHT", .COLOR_MENUHILIGHT)
  , ("Windows.SysColor.COLOR_MENUBAR", .COLOR_MENUBAR)
  , ("Windows.SysColor.COLOR_MENUTEXT", .COLOR_MENUTEXT)
  , ("Windows.SysColor.COLOR_SCROLLBAR", .COLOR_SCROLLBAR)
  , ("Windows.SysColor.COLOR_WINDOW", .COLOR_WINDOW)
  , ("Windows.SysColor.COLOR_WINDOWFRAME", .COLOR_WINDOWFRAME)
  , ("Windows.SysColor.COLOR_WINDOWTEXT", .COLOR_WINDOWTEXT) ]

/-- `ThemeSupport::querySystemColors(jobject properties)`: one `putColorValue`
call per entry of `sysColorKeys`, with the platform's `GetSysColor` passed in
as an explicit function. -/
def querySystemColors (getSysColor : SysColorIndex → Nat) (props : PropertiesMap) :
    PropertiesMap :=
  sysColorKeys.foldl (fun ps p => putColorValue ps p.1 (getSysColor p.2)) props

/-- The `UIColorType` values queried by `queryWindows10ThemeColors`. -/
inductive UIColorType where
  | Background
  | Foreground
  | AccentDark3
  | AccentDark2
  | AccentDark1
  | Accent
  | AccentLight1
  | AccentLight2
  | AccentLight3
deriving DecidableEq, Repr

/-- The nine `(property key, UIColorType)` pairs of the `putColorValue` calls
issued by `queryWindows10ThemeColors` on success, in program order. -/
def uiColorKeys : List (String × UIColorType) :=
  [ ("Windows.UI.ViewManagement.UISettings.ColorValue_Background", .Background)
  , ("Windows.UI.ViewManagement.UISettings.ColorValue_Foreground", .Foreground)
  , ("Windows.UI.ViewManagement.UISettings.ColorValue_AccentDark3", .AccentDark3)
  , ("Windows.UI.ViewManagement.UISettings.ColorValue_AccentDark2", .AccentDark2)
  , ("Windows.UI.ViewManagement.UISettings.ColorValue_AccentDark1", .AccentDark1)
  , ("Windows.UI.ViewManagement.UISettings.ColorValue_Accent", .Accent)
  , ("Windows.UI.ViewManagement.UISettings.ColorValue_AccentLight1", .AccentLight1)
  , ("Windows.UI.ViewManagement.UISettings.ColorValue_AccentLight2", .AccentLight2)
  , ("Windows.UI.ViewManagement.UISettings.ColorValue_AccentLight3", .AccentLight3) ]

/-- The body of the `try` block of `queryWindows10ThemeColors`: `RO_CHECKED`
throws an `RoException` when `RoActivateInstance` fails (`activateOk = false`)
or when the `QueryInterface<IUISettings3>` call fails (`queryOk = false`);
only after both checks pass are the nine colors read and stored. The nine
`GetColorValue` results are passed in as `getColorValue`. -/
def queryThemeColorsBody (activateOk queryOk : Bool)
    (getColorValue : UIColorType → Color) (props : PropertiesMap) :
    Except String PropertiesMap :=
  if !activateOk then Except.error "RoActivateInstance failed: "
  else if !queryOk then Except.error "IUISettings::QueryInterface<IUISettings3> failed: "
  else Except.ok (uiColorKeys.foldl (fun ps p => putColorValueColor ps p.1 (getColorValue p.2)) props)

/-- `ThemeSupport::queryWindows10ThemeColors(jobject properties)`: returns
immediately when `isRoActivationSupported()` is false, and catches any
`RoException` from the `try` block, leaving the map untouched in either case
and signaling no error to the caller. -/
def queryWindows10ThemeColors (roSupported activateOk queryOk : Bool)
    (getColorValue : UIColorType → Color) (props : PropertiesMap) : PropertiesMap :=
  if !roSupported then props
  else
    match queryThemeColorsBody activateOk queryOk getColorValue props with
    | Except.ok r => r
    | Except.error _ => props

/-- `c` is an uppercase hexadecimal digit: an ASCII decimal digit or one of
the uppercase letters `A`–`F`. -/
def isUpperHexDigit (c : Char) : Bool :=
  (48 ≤ c.toNat && c.toNat ≤ 57) || (65 ≤ c.toNat && c.toNat ≤ 70)

end ThemeSupport

namespace PlatformXR

theorem Device.applyCalls_cons (d : Device) (c : SessionMode × ListOfEnabledFeatures)
    (cs : List (SessionMode × ListOfEnabledFeatures)) :
    d.applyCalls (c :: cs) = (d.setEnabledFeatures c.1 c.2).applyCalls cs := rfl

theorem Device.map_setEnabledFeatures (d : Device) (mode : SessionMode)
    (features : ListOfEnabledFeatures) (m : SessionMode) :
    (d.setEnabledFeatures mode features).m_enabledFeaturesMap m =
      if m = mode then some features else d.m_enabledFeaturesMap m := rfl

/-- Calls that never mention `mode` leave the map entry for `mode` unchanged. -/
theorem Device.map_applyCalls_of_ne (calls : List (SessionMode × ListOfEnabledFeatures))
    (mode : SessionMode) (h : ∀ c ∈ calls, c.1 ≠ mode) (d : Device) :
    (d.applyCalls calls).m_enabledFeaturesMap mode = d.m_enabledFeaturesMap mode := by
  induction calls generalizing d with
  | nil => rfl
  | cons c cs ih =>
      rw [Device.applyCalls_cons, ih (fun x hx => h x (List.mem_cons_of_mem _ hx)) _,
        Device.map_setEnabledFeatures]
      exact if_neg (fun hm => h c (List.mem_cons_self _ _) hm.symm)

/-- `supports` after a call sequence: true iff some call mentioned the mode or
it was already supported. -/
theorem Device.supports_applyCalls (calls : List (SessionMode × ListOfEnabledFeatures))
    (mode : SessionMode) (d : Device) :
    (d.applyCalls calls).supports mode = true ↔
      (∃ c ∈ calls, c.1 = mode) ∨ d.supports mode = true := by
  induction calls generalizing d with
  | nil => simp [Device.applyCalls]
  | cons c cs ih =>
      rw [Device.applyCalls_cons, ih]
      by_cases hc : mode = c.1
      · subst hc
        simp [Device.supports, Device.map_setEnabledFeatures]
      · have : (d.setEnabledFeatures c.1 c.2).supports mode = d.supports mode := by
          simp [Device.supports, Device.map_setEnabledFeatures, if_neg hc]
        rw [this]
        constructor
        · rintro (⟨x, hx, hx1⟩ | hd)
          · exact Or.inl ⟨x, List.mem_cons_of_mem _ hx, hx1⟩
          · exact Or.inr hd
        · rintro (⟨x, hx, hx1⟩ | hd)
          · rcases List.mem_cons.mp hx with rfl | hx
            · exact absurd hx1.symm hc
            · exact Or.inl ⟨x, hx, hx1⟩
          · exact Or.inr hd

end PlatformXR

namespace ThemeSupport

theorem hexDigit_isUpperHexDigit : ∀ n < 16, isUpperHexDigit (hexDigit n) = true := by
  decide

theorem byteToHex_255 : byteToHex 255 = "FF" := by decide

/-- The character list underlying a `newJavaColorString` result: two hex
digits per component, components in the order r, g, b, a. -/
theorem newJavaColorString_toList (r g b a : Nat) :
    (newJavaColorString r g b a).toList =
      [hexDigit (r / 16 % 16), hexDigit (r % 16), hexDigit (g / 16 % 16), hexDigit (g % 16),
       hexDigit (b / 16 % 16), hexDigit (b % 16), hexDigit (a / 16 % 16), hexDigit (a % 16)] :=
  rfl

/-- A color string produced with alpha component 255 ends in `"FF"`. -/
theorem newJavaColorString_alpha255 (r g b : Nat) :
    ∃ p, newJavaColorString r g b 255 = p ++ "FF" :=
  ⟨byteToHex r ++ byteToHex g ++ byteToHex b, by
    rw [newJavaColorString, byteToHex_255]⟩

/-- Every entry a fold of `putColorValue` calls adds beyond the incoming map
carries a value string that ends in `"FF"`. -/
theorem mem_foldl_putColorValue (getSysColor : SysColorIndex → Nat) :
    ∀ (l : List (String × SysColorIndex)) (props : PropertiesMap) (kv : String × String),
      kv ∈ l.foldl (fun ps p => putColorValue ps p.1 (getSysColor p.2)) props →
      kv ∈ props ∨ ∃ p, kv.2 = p ++ "FF" := by
  intro l
  induction l with
  | nil => intro props kv h; exact Or.inl h
  | cons a t ih =>
      intro props kv h
      rcases ih (putColorValue props a.1 (getSysColor a.2)) kv h with hmem | hff
      · rcases List.mem_append.mp hmem with hp | he
        · exact Or.inl hp
        · rcases List.mem_singleton.mp he with rfl
          exact Or.inr (newJavaColorString_alpha255 _ _ _)
      · exact Or.inr hff

end ThemeSupport

open PlatformXR SvgLoader ThemeSupport

/-- C1: For every SessionMode value that was never passed to
`Device::setEnabledFeatures` on a freshly constructed device, `supports(mode)`
returns false and `enabledFeatures(mode)` returns an empty sequence; and
`supports(mode)` returns true if and only if a feature entry (possibly an
empty list) has been registered for that mode. The model is total, so no
call can throw. -/
theorem C1_unregistered_mode_unsupported
    (calls : List (SessionMode × ListOfEnabledFeatures)) (mode : SessionMode)
    (h : ∀ c ∈ calls, c.1 ≠ mode) :
    ((Device.init.applyCalls calls).supports mode = false ∧
     (Device.init.applyCalls calls).enabledFeatures mode = []) ∧
    ∀ calls2 : List (SessionMode × ListOfEnabledFeatures),
      ((Device.init.applyCalls calls2).supports mode = true ↔ ∃ c ∈ calls2, c.1 = mode) := by
  constructor
  · have hm := Device.map_applyCalls_of_ne calls mode h Device.init
    constructor
    · simp only [Device.supports]
      rw [hm]
      rfl
    · simp only [Device.enabledFeatures]
      rw [hm]
      rfl
  · intro calls2
    rw [Device.supports_applyCalls]
    simp [Device.supports, Device.init]

/-- Witness for C1 at a concrete call history. -/
theorem C1_witness :
    (∀ c ∈ [(SessionMode.Inline, ([] : ListOfEnabledFeatures))],
        c.1 ≠ SessionMode.ImmersiveVr) ∧
    (((Device.init.applyCalls [(SessionMode.Inline, [])]).supports SessionMode.ImmersiveVr
          = false ∧
      (Device.init.applyCalls [(SessionMode.Inline, [])]).enabledFeatures SessionMode.ImmersiveVr
          = []) ∧
     ∀ calls2 : List (SessionMode × ListOfEnabledFeatures),
       ((Device.init.applyCalls calls2).supports SessionMode.ImmersiveVr = true ↔
         ∃ c ∈ calls2, c.1 = SessionMode.ImmersiveVr)) :=
  ⟨by decide, C1_unregistered_mode_unsupported [(SessionMode.Inline, [])] SessionMode.ImmersiveVr
    (by decide)⟩

/-- C2: `setEnabledFeatures(mode, F)` followed immediately by
`enabledFeatures(mode)` returns exactly `F` — the same elements in the same
order — for every device state, mode and ordered feature list. -/
theorem C2_setEnabledFeatures_roundTrip (d : Device) (mode : SessionMode)
    (F : ListOfEnabledFeatures) :
    (d.setEnabledFeatures mode F).enabledFeatures mode = F := by
  simp [Device.enabledFeatures, Device.setEnabledFeatures]

/-- C3: whenever the underlying parse yields a non-OK error code, both
`parseDocument` variants raise an exception whose message is drawn from the
fixed six-message taxonomy and return the null handle 0. -/
theorem C3_parse_failure_taxonomy (bs : List Nat) (err : ResvgError) (tree : Int)
    (h : err ≠ ResvgError.RESVG_OK) :
    ((parseDocument_c (some bs) true err tree).handle = 0 ∧
     ∃ m, (parseDocument_c (some bs) true err tree).thrown = some ("java/io/IOException", m) ∧
       m ∈ svgErrorTaxonomy) ∧
    ((parseDocument_cc (some bs) err tree).handle = 0 ∧
     ∃ m, (parseDocument_cc (some bs) err tree).thrown =
         some ("java/lang/InvalidArgumentException", m) ∧
       m ∈ svgErrorTaxonomy) := by
  cases err with
  | RESVG_OK => exact absurd rfl h
  | _ => exact ⟨⟨rfl, _, rfl, by decide⟩, rfl, _, rfl, by decide⟩

/-- Witness for C3 at a concrete failing parse. -/
theorem C3_witness :
    ResvgError.RESVG_ERROR_PARSING_FAILED ≠ ResvgError.RESVG_OK ∧
    (((parseDocument_c (some []) true ResvgError.RESVG_ERROR_PARSING_FAILED 0).handle = 0 ∧
      ∃ m, (parseDocument_c (some []) true ResvgError.RESVG_ERROR_PARSING_FAILED 0).thrown =
          some ("java/io/IOException", m) ∧ m ∈ svgErrorTaxonomy) ∧
     ((parseDocument_cc (some []) ResvgError.RESVG_ERROR_PARSING_FAILED 0).handle = 0 ∧
      ∃ m, (parseDocument_cc (some []) ResvgError.RESVG_ERROR_PARSING_FAILED 0).thrown =
          some ("java/lang/InvalidArgumentException", m) ∧ m ∈ svgErrorTaxonomy)) :=
  ⟨by decide, C3_parse_failure_taxonomy [] ResvgError.RESVG_ERROR_PARSING_FAILED 0 (by decide)⟩

/-- C4: when WinRT activation is unsupported, or activation or the
`IUISettings3` interface query fails, `queryWindows10ThemeColors` leaves the
caller-supplied properties map exactly as it was — no theme-color key is
written, wholly or partially — and its return type carries no error. -/
theorem C4_unsupported_platform_omits_keys (roSupported activateOk queryOk : Bool)
    (getColorValue : UIColorType → Color) (props : PropertiesMap)
    (h : roSupported = false ∨ activateOk = false ∨ queryOk = false) :
    queryWindows10ThemeColors roSupported activateOk queryOk getColorValue props = props := by
  rcases h with h | h | h <;> subst h
  · rfl
  · cases roSupported <;> rfl
  · cases roSupported <;> cases activateOk <;> rfl

/-- Witness for C4 on a platform without WinRT activation. -/
theorem C4_witness :
    ((false : Bool) = false ∨ (true : Bool) = false ∨ (true : Bool) = false) ∧
    queryWindows10ThemeColors false true true (fun _ => ⟨0, 0, 0, 0⟩) [] = [] :=
  ⟨Or.inl rfl, C4_unsupported_platform_omits_keys false true true (fun _ => ⟨0, 0, 0, 0⟩) []
    (Or.inl rfl)⟩

/-- C5: for 8-bit components r, g, b, a, `putColorValue` stores under the given
key the 8-character uppercase-hex string encoding the components in the order
RRGGBBAA; in particular RGBA (255,0,128,255) yields `"FF0080FF"`. -/
theorem C5_color_hex_encoding (r g b a : Nat) (props : PropertiesMap) (key : String)
    (hr : r < 256) (hg : g < 256) (hb : b < 256) (ha : a < 256) :
    putColorValueColor props key ⟨a, r, g, b⟩ = props ++ [(key, newJavaColorString r g b a)] ∧
    newJavaColorString r g b a = byteToHex r ++ byteToHex g ++ byteToHex b ++ byteToHex a ∧
    (newJavaColorString r g b a).length = 8 ∧
    (∀ c ∈ (newJavaColorString r g b a).toList, isUpperHexDigit c = true) ∧
    newJavaColorString 255 0 128 255 = "FF0080FF" := by
  refine ⟨rfl, rfl, rfl, ?_, by decide⟩
  intro c hc
  rw [newJavaColorString_toList] at hc
  simp only [List.mem_cons, List.not_mem_nil, or_false] at hc
  rcases hc with rfl | rfl | rfl | rfl | rfl | rfl | rfl | rfl <;>
    exact hexDigit_isUpperHexDigit _ (Nat.mod_lt _ (by decide))

/-- Witness for C5 at RGBA (255,0,128,255). -/
theorem C5_witness :
    ((255 : Nat) < 256 ∧ (0 : Nat) < 256 ∧ (128 : Nat) < 256 ∧ (255 : Nat) < 256) ∧
    (putColorValueColor [] "Windows.UI.ViewManagement.UISettings.ColorValue_Accent"
        ⟨255, 255, 0, 128⟩ =
      [] ++ [("Windows.UI.ViewManagement.UISettings.ColorValue_Accent",
        newJavaColorString 255 0 128 255)] ∧
     newJavaColorString 255 0 128 255 =
       byteToHex 255 ++ byteToHex 0 ++ byteToHex 128 ++ byteToHex 255 ∧
     (newJavaColorString 255 0 128 255).length = 8 ∧
     (∀ c ∈ (newJavaColorString 255 0 128 255).toList, isUpperHexDigit c = true) ∧
     newJavaColorString 255 0 128 255 = "FF0080FF") :=
  ⟨by decide, C5_color_hex_encoding 255 0 128 255 []
    "Windows.UI.ViewManagement.UISettings.ColorValue_Accent"
    (by decide) (by decide) (by decide) (by decide)⟩

/-- C6 counterexample: with high contrast enabled (`dwFlags` has the
`HCF_HIGHCONTRASTON` bit set) and the platform supplying an empty default
scheme name, `queryHighContrastScheme` writes an empty scheme-name string —
refuting the claim that the scheme-name string is non-empty whenever high
contrast is enabled. -/
theorem C6_counterexample :
    1 &&& HCF_HIGHCONTRASTON ≠ 0 ∧
    queryHighContrastScheme 1 "" [] =
      [("Windows.SPI_HighContrastOn", "true"), ("Windows.SPI_HighContrastColorScheme", "")] :=
  ⟨by decide, rfl⟩

/-- C6 (amended): `queryHighContrastScheme` always writes both the
high-contrast flag key and the scheme-name key; when high contrast is disabled
it writes `HighContrastOn=false` and an empty scheme-name string; when enabled
it writes `HighContrastOn=true` and the platform-supplied scheme name, which
is non-empty exactly when the platform supplies a non-empty name. -/
theorem C6_highContrast_keys (dwFlags : Nat) (scheme : String) (props : PropertiesMap) :
    (("Windows.SPI_HighContrastOn",
        if dwFlags &&& HCF_HIGHCONTRASTON ≠ 0 then "true" else "false") ∈
      queryHighContrastScheme dwFlags scheme props) ∧
    (("Windows.SPI_HighContrastColorScheme",
        if dwFlags &&& HCF_HIGHCONTRASTON ≠ 0 then scheme else "") ∈
      queryHighContrastScheme dwFlags scheme props) := by
  by_cases h : dwFlags &&& HCF_HIGHCONTRASTON ≠ 0 <;>
    simp [queryHighContrastScheme, putValue, h]

/-- C7: `setEnabledFeatures(mode, F)` replaces only the association for
`mode`: every other mode keeps its `enabledFeatures` and `supports` results,
and the capability flags are unchanged. -/
theorem C7_setEnabledFeatures_frame (d : Device) (mode : SessionMode)
    (F : ListOfEnabledFeatures) (mode' : SessionMode) (h : mode' ≠ mode) :
    (d.setEnabledFeatures mode F).enabledFeatures mode' = d.enabledFeatures mode' ∧
    (d.setEnabledFeatures mode F).supports mode' = d.supports mode' ∧
    (d.setEnabledFeatures mode F).m_supportsOrientationTracking
        = d.m_supportsOrientationTracking ∧
    (d.setEnabledFeatures mode F).m_supportsViewportScaling = d.m_supportsViewportScaling := by
  refine ⟨?_, ?_, rfl, rfl⟩ <;>
    simp [Device.enabledFeatures, Device.supports, Device.map_setEnabledFeatures, if_neg h]

/-- Witness for C7 at a concrete device and mode pair. -/
theorem C7_witness :
    SessionMode.ImmersiveAr ≠ SessionMode.Inline ∧
    ((Device.init.setEnabledFeatures SessionMode.Inline
        [ReferenceSpaceType.Viewer]).enabledFeatures SessionMode.ImmersiveAr =
      Device.init.enabledFeatures SessionMode.ImmersiveAr ∧
     (Device.init.setEnabledFeatures SessionMode.Inline
        [ReferenceSpaceType.Viewer]).supports SessionMode.ImmersiveAr =
      Device.init.supports SessionMode.ImmersiveAr ∧
     (Device.init.setEnabledFeatures SessionMode.Inline
        [ReferenceSpaceType.Viewer]).m_supportsOrientationTracking =
      Device.init.m_supportsOrientationTracking ∧
     (Device.init.setEnabledFeatures SessionMode.Inline
        [ReferenceSpaceType.Viewer]).m_supportsViewportScaling =
      Device.init.m_supportsViewportScaling) :=
  ⟨by decide, C7_setEnabledFeatures_frame Device.init SessionMode.Inline
    [ReferenceSpaceType.Viewer] SessionMode.ImmersiveAr (by decide)⟩

/-- C8: the two SVG loader variants map every decode-error code to
character-for-character identical error-message strings. -/
theorem C8_error_tables_identical : ∀ err : ResvgError, svg_error_message err = errorMessage err := by
  intro err
  cases err <;> rfl

/-- C9: a null byte-array reference makes `parseDocument` return the null
handle 0 without raising any error, in both loader variants. -/
theorem C9_null_input_null_handle (getElemsOk : Bool) (err : ResvgError) (tree : Int) :
    parseDocument_c none getElemsOk err tree = ⟨0, none⟩ ∧
    parseDocument_cc none err tree = ⟨0, none⟩ :=
  ⟨rfl, rfl⟩

/-- C10: every color string written by `querySystemColors` ends in `"FF"`:
the bridge fixes the alpha component of every GDI system color to 255. -/
theorem C10_sysColors_opaque_alpha (getSysColor : SysColorIndex → Nat) (kv : String × String)
    (h : kv ∈ querySystemColors getSysColor []) :
    ∃ p, kv.2 = p ++ "FF" := by
  rcases mem_foldl_putColorValue getSysColor sysColorKeys [] kv h with hmem | hff
  · exact absurd hmem (List.not_mem_nil _)
  · exact hff

/-- Witness for C10 at a concrete system-color table. -/
theorem C10_witness :
    (("Windows.SysColor.COLOR_3DDKSHADOW", "000000FF") ∈
      querySystemColors (fun _ => 0) []) ∧
    ∃ p, (("Windows.SysColor.COLOR_3DDKSHADOW", "000000FF") : String × String).2 = p ++ "FF" :=
  ⟨by decide, C10_sysColors_opaque_alpha (fun _ => 0) _ (by decide)⟩
